import Mathlib

/-!
Shallow embedding of the proxy-monitor program (src/main.go) and proofs
about its command protocol, command executor, server channel and
change-detection poll loop.
-/

namespace ProxyMonitor

/-- Command constants from main.go (`NO_COMMAND`, `CMD_STOP`, `CMD_QUIT`,
`CMD_START`); these byte values are also sent between processes. -/
def NO_COMMAND : Nat := 0

/-- Wire byte for the STOP command. -/
def CMD_STOP : Nat := 1

/-- Wire byte for the QUIT command. -/
def CMD_QUIT : Nat := 2

/-- Wire byte for the START command. -/
def CMD_START : Nat := 3

/-- Embedding of `parseCommand`: maps the `os.Args` list to a command byte
together with an optional error message.  If fewer than two entries are
present (no flag was given) it yields `NO_COMMAND` with no error; `-stop`,
`-start` and `-quit` map to their constants; any other flag yields
`NO_COMMAND` together with an error. -/
def parseCommand (args : List String) : Nat × Option String :=
  if args.length < 2 then
    (NO_COMMAND, none)
  else
    match args.get? 1 with
    | some "-stop" => (CMD_STOP, none)
    | some "-start" => (CMD_START, none)
    | some "-quit" => (CMD_QUIT, none)
    | some arg => (NO_COMMAND, some ("unknown command: " ++ arg))
    | none => (NO_COMMAND, none)

/-- Outcome of `executeCommand`: either the process exits (QUIT calls
`os.Exit(0)`) or the call returns a boolean result together with the new
value of the global `listenerEnabled` flag. -/
inductive ExecOutcome where
  | exit (code : Nat)
  | done (result : Bool) (listenerEnabled : Bool)
deriving DecidableEq, Repr

/-- Embedding of `executeCommand`: the `switch` over the command byte.
START when already enabled returns false; otherwise `startListening` sets
the flag and it returns true.  STOP symmetrically.  QUIT calls
`os.Exit(0)`.  Any other byte falls through the switch and returns true
with the flag untouched. -/
def executeCommand (cmd : Nat) (listenerEnabled : Bool) : ExecOutcome :=
  if cmd = CMD_START then
    if listenerEnabled then ExecOutcome.done false listenerEnabled
    else ExecOutcome.done true true
  else if cmd = CMD_STOP then
    if !listenerEnabled then ExecOutcome.done false listenerEnabled
    else ExecOutcome.done true false
  else if cmd = CMD_QUIT then
    ExecOutcome.exit 0
  else
    ExecOutcome.done true listenerEnabled

/-- Initial value of the global `var listenerEnabled bool = true`. -/
def serverInitialListenerEnabled : Bool := true

/-- Embedding of the byte a client writes to the pipe in `clientMain`
(assuming the dial succeeded): the client parses the command line; on a
parse error it returns before writing (`none`), otherwise it writes the
parsed command byte unconditionally. -/
def clientTransmittedByte (args : List String) : Option Nat :=
  let (parsedCmd, err) := parseCommand args
  match err with
  | some _ => none
  | none => some parsedCmd

/-- Embedding of the `serverMain` startup path, describing the value of
`listenerEnabled` at the moment `listenToProxyChanges` begins: `none` when
the poll loop is never reached (launch command QUIT returns right away);
otherwise `startListening` is called only for `NO_COMMAND` or `CMD_START`,
and in every other case (including `CMD_STOP` and parse errors) the flag
keeps its initial value. -/
def serverArmedAtPollStart (args : List String) : Option Bool :=
  let (cmd, _) := parseCommand args
  if cmd = CMD_QUIT then none
  else if cmd = NO_COMMAND ∨ cmd = CMD_START then some true
  else some serverInitialListenerEnabled

end ProxyMonitor

namespace ProxyMonitor

/-- Result of one registry read (`key.GetIntegerValue` /
`key.GetStringValue`): a value, the `registry.ErrNotExist` error, or some
other error. -/
inductive RegRead (α : Type) where
  | ok (v : α)
  | errNotExist
  | errOther
deriving DecidableEq, Repr

/-- True when the read did not return a value. -/
def RegRead.isErr {α : Type} : RegRead α → Bool
  | RegRead.ok _ => false
  | RegRead.errNotExist => true
  | RegRead.errOther => true

/-- One log line appended by the poll loop: `proxy off` carries no
address, `proxy on` carries the current `ProxyServer` string (possibly
empty). -/
inductive LogLine where
  | off
  | on (addr : String)
deriving DecidableEq, Repr

/-- Rendering of a log line as written by `fmt.Fprintf`, given the
formatted timestamp. -/
def renderLogLine (formattedTime : String) : LogLine → String
  | LogLine.off => formattedTime ++ "\tproxy off\n"
  | LogLine.on addr => formattedTime ++ "\tproxy on, " ++ addr ++ "\n"

/-- Result of one `checkForChanges` tick: the returned boolean (`true` to
keep polling, `false` to end the loop), the cache variables
`lastProxyEnable` / `lastProxyServer` after the tick, and the log lines
appended during the tick. -/
structure CheckResult where
  keepGoing : Bool
  lastProxyEnable : Nat
  lastProxyServer : String
  logLines : List LogLine
deriving DecidableEq, Repr

/-- Tail of `checkForChanges` after both registry reads: compare the
snapshot `(proxyEnable, proxyServer)` with the cache; when equal, nothing
is logged; otherwise the cache is overwritten with the snapshot and
exactly one line is appended — `proxy off` when `proxyEnable == 0`, else
`proxy on` with the address. -/
def compareAndLog (proxyEnable : Nat) (proxyServer : String)
    (lastProxyEnable : Nat) (lastProxyServer : String) : CheckResult :=
  if proxyEnable = lastProxyEnable ∧ proxyServer = lastProxyServer then
    ⟨true, lastProxyEnable, lastProxyServer, []⟩
  else if proxyEnable = 0 then
    ⟨true, proxyEnable, proxyServer, [LogLine.off]⟩
  else
    ⟨true, proxyEnable, proxyServer, [LogLine.on proxyServer]⟩

/-- Embedding of the closure `checkForChanges` in `listenToProxyChanges`.
When `listenerEnabled` is false the tick does nothing and returns true.
A failed `ProxyEnable` read returns false.  For the `ProxyServer` read,
`registry.ErrNotExist` executes `lastProxyServer = ""` (the cache
variable) and continues with the snapshot string at its Go zero value
`""`; any other error returns false.  Then the comparison and logging of
`compareAndLog` run. -/
def checkForChanges (listenerEnabled : Bool)
    (lastProxyEnable : Nat) (lastProxyServer : String)
    (readProxyEnable : RegRead Nat) (readProxyServer : RegRead String) :
    CheckResult :=
  if !listenerEnabled then
    ⟨true, lastProxyEnable, lastProxyServer, []⟩
  else
    match readProxyEnable with
    | RegRead.errNotExist => ⟨false, lastProxyEnable, lastProxyServer, []⟩
    | RegRead.errOther => ⟨false, lastProxyEnable, lastProxyServer, []⟩
    | RegRead.ok proxyEnable =>
      match readProxyServer with
      | RegRead.errOther => ⟨false, lastProxyEnable, lastProxyServer, []⟩
      | RegRead.errNotExist =>
        compareAndLog proxyEnable "" lastProxyEnable ""
      | RegRead.ok proxyServer =>
        compareAndLog proxyEnable proxyServer lastProxyEnable lastProxyServer

/-- Cache portion of the monitoring state
(`lastProxyEnable` / `lastProxyServer` in `listenToProxyChanges`). -/
structure MonitorCache where
  lastProxyEnable : Nat
  lastProxyServer : String
deriving DecidableEq, Repr

/-- Environment of one poll tick: the current `listenerEnabled` flag and
the results of the two registry reads for that tick. -/
structure TickInput where
  listenerEnabled : Bool
  readProxyEnable : RegRead Nat
  readProxyServer : RegRead String

/-- Embedding of the `for` loop at the bottom of `listenToProxyChanges`,
run over a finite list of tick environments: each tick calls
`checkForChanges`; as soon as it returns false the loop returns.  The
result is the final cache, whether the loop was still running after the
listed ticks, and all log lines appended. -/
def runTicks (cache : MonitorCache) :
    List TickInput → MonitorCache × Bool × List LogLine
  | [] => (cache, true, [])
  | t :: ts =>
    let r := checkForChanges t.listenerEnabled
      cache.lastProxyEnable cache.lastProxyServer
      t.readProxyEnable t.readProxyServer
    if r.keepGoing then
      let (c2, alive, lines) := runTicks ⟨r.lastProxyEnable, r.lastProxyServer⟩ ts
      (c2, alive, r.logLines ++ lines)
    else
      (⟨r.lastProxyEnable, r.lastProxyServer⟩, false, r.logLines)

end ProxyMonitor

namespace ProxyMonitor

/-- Outcome of handling one pipe connection in `listenToNamedPipe` after
its command byte was read: either the process exited inside
`executeCommand` (no response byte is written) or a response byte (1 for
true, 0 for false) is written back and the flag has its new value. -/
inductive ConnOutcome where
  | exit (code : Nat)
  | reply (resp : Nat) (listenerEnabled : Bool)
deriving DecidableEq, Repr

/-- Embedding of the per-connection body of `listenToNamedPipe`: execute
the command byte, then encode the boolean result as byte 1 or 0 and write
it back — unless `executeCommand` exited the process. -/
def handleConnection (cmd : Nat) (listenerEnabled : Bool) : ConnOutcome :=
  match executeCommand cmd listenerEnabled with
  | ExecOutcome.exit code => ConnOutcome.exit code
  | ExecOutcome.done execRes newEnabled =>
    ConnOutcome.reply (if execRes then 1 else 0) newEnabled

/-- The response byte carried by a connection outcome, if any. -/
def responseOf : ConnOutcome → Option Nat
  | ConnOutcome.exit _ => none
  | ConnOutcome.reply r _ => some r

/-- What one accepted connection does, as seen by the accept loop:
it delivers a command byte, its read fails, or it hangs — the client
never completes the one-byte exchange, so `conn.Read` never returns. -/
inductive ConnEvent where
  | bytes (cmd : Nat)
  | readErr
  | hang

/-- Embedding of the accept loop of `listenToNamedPipe`.  The loop runs in
a single goroutine and handles each accepted connection inline: it reads
the command byte, executes it and writes the response before calling
`l.Accept()` again.  A failed read drops the connection and continues.  A
hanging connection blocks `conn.Read` forever, so no later connection is
ever accepted and no further response bytes are produced.  `executeCommand`
exiting the process likewise produces nothing further.  The value is the
list of response bytes written to clients, in order. -/
def serveConns (listenerEnabled : Bool) : List ConnEvent → List Nat
  | [] => []
  | ConnEvent.readErr :: rest => serveConns listenerEnabled rest
  | ConnEvent.hang :: _ => []
  | ConnEvent.bytes cmd :: rest =>
    match handleConnection cmd listenerEnabled with
    | ConnOutcome.exit _ => []
    | ConnOutcome.reply r newEnabled => r :: serveConns newEnabled rest

/-- Two successive calls of `executeCommand` with the same command byte,
threading the flag; `none` when either call exits the process. -/
def execTwice (cmd : Nat) (listenerEnabled : Bool) : Option (Bool × Bool) :=
  match executeCommand cmd listenerEnabled with
  | ExecOutcome.exit _ => none
  | ExecOutcome.done r1 e1 =>
    match executeCommand cmd e1 with
    | ExecOutcome.exit _ => none
    | ExecOutcome.done r2 _ => some (r1, r2)

end ProxyMonitor

namespace ProxyMonitor

/-- Helper: the comparison-and-log tail of a tick never ends the loop. -/
theorem compareAndLog_keepGoing (pe : Nat) (ps : String)
    (le : Nat) (ls : String) :
    (compareAndLog pe ps le ls).keepGoing = true := by
  unfold compareAndLog
  split
  · rfl
  · split <;> rfl

/-- Claim C1: for each command in {START, STOP} and each armed state,
executing the command when the flag is already in its target state
returns false and leaves the flag unchanged, and executing it otherwise
returns true and flips the flag exactly once. -/
theorem C1_start_stop_transition (armed : Bool) :
    executeCommand CMD_START armed =
      (if armed then ExecOutcome.done false armed
       else ExecOutcome.done true (!armed)) ∧
    executeCommand CMD_STOP armed =
      (if armed then ExecOutcome.done true (!armed)
       else ExecOutcome.done false armed) := by
  cases armed <;> decide

/-- Claim C2, refuting evaluation: a client launched with no command-line
flag (the argument list holds only the program name) reaches the write and
transmits the NONE byte 0, which is none of the three valid wire bytes. -/
theorem C2_no_flag_transmits_none :
    clientTransmittedByte ["proxy-monitor"] = some NO_COMMAND ∧
    NO_COMMAND ≠ CMD_STOP ∧ NO_COMMAND ≠ CMD_QUIT ∧ NO_COMMAND ≠ CMD_START := by
  decide

/-- Claim C3, refuting evaluation: on an armed tick with cached state
(1, "10.0.0.1:8080"), a successful primary read of 1 and an absent
secondary value, the tick rewrites the cached address to the empty string
before the comparison; the comparison then finds no change and nothing is
logged, so the cache no longer equals the last logged observation. -/
theorem C3_cache_written_without_change :
    checkForChanges true 1 "10.0.0.1:8080" (RegRead.ok 1) RegRead.errNotExist =
      ⟨true, 1, "", []⟩ ∧
    ("" : String) ≠ "10.0.0.1:8080" := by
  decide

/-- Claim C4, refuting evaluation: on an armed tick with primary reading 1
unchanged and the secondary absent while the cached address is non-empty,
the tick appends zero log lines, not the one proxy-on line with an empty
address that the claim requires. -/
theorem C4_absent_secondary_masks_change :
    (checkForChanges true 1 "10.0.0.1:8080" (RegRead.ok 1)
        RegRead.errNotExist).logLines = [] ∧
    ([] : List LogLine) ≠ [LogLine.on ""] := by
  decide

/-- Claim C5, counterexample: a server launched with the STOP flag reaches
the poll loop with the armed flag still true, not false. -/
theorem C5_counterexample_stop_launch :
    serverArmedAtPollStart ["proxy-monitor", "-stop"] = some true ∧
    (some true : Option Bool) ≠ some false := by
  decide

/-- Claim C5, amended: whenever the server reaches the poll loop the armed
flag is true — for START and no-command launches because startListening
ran, and for STOP and parse-error launches because nothing ever cleared
the initial value; a STOP launch override does not exist. -/
theorem C5_amended_armed_always_true (args : List String) (b : Bool)
    (h : serverArmedAtPollStart args = some b) : b = true := by
  unfold serverArmedAtPollStart at h
  rcases hp : parseCommand args with ⟨cmd, e⟩
  rw [hp] at h
  dsimp only at h
  split at h
  · exact absurd h (by simp)
  · split at h
    · injection h with h
      exact h.symm
    · injection h with h
      exact h.symm

/-- Witness for the amended claim C5 at the STOP launch. -/
theorem C5_amended_witness : (true : Bool) = true :=
  C5_amended_armed_always_true ["proxy-monitor", "-stop"] true (by decide)

/-- Claim C6: when the decoded command is QUIT, the executor exits the
process with status 0 before the response write, for every prior armed
state, so no response byte is produced for the connection. -/
theorem C6_quit_exits_without_response (armed : Bool) :
    handleConnection CMD_QUIT armed = ConnOutcome.exit 0 ∧
    responseOf (handleConnection CMD_QUIT armed) = none := by
  cases armed <;> decide

/-- Claim C7, counterexample: an armed tick where the primary read
succeeds with value 1 but the secondary read fails with an error other
than not-exist makes the tick return false and the poll loop terminate,
although the primary enabled flag was read successfully. -/
theorem C7_counterexample_secondary_hard_error :
    (checkForChanges true 1 "10.0.0.1:8080" (RegRead.ok 1)
        RegRead.errOther).keepGoing = false ∧
    RegRead.isErr (RegRead.ok (1 : Nat)) = false := by
  decide

/-- Claim C7, amended: on an armed tick the poll loop terminates iff the
primary read fails or the secondary read fails with an error other than
not-exist; simple absence of the secondary value never terminates the
loop. -/
theorem C7_amended_termination_condition (lastE : Nat) (lastS : String)
    (re : RegRead Nat) (rs : RegRead String) :
    (checkForChanges true lastE lastS re rs).keepGoing = false ↔
      (RegRead.isErr re = true ∨ rs = RegRead.errOther) := by
  cases re <;> cases rs <;>
    simp [checkForChanges, RegRead.isErr, compareAndLog_keepGoing]

/-- Claim C8, counterexample: when a hung connection precedes a STOP
client, the accept loop produces no response bytes at all, whereas the
same STOP client alone receives response byte 1 — the hung connection
blocks the subsequent client. -/
theorem C8_counterexample_hang_blocks :
    serveConns true [ConnEvent.hang, ConnEvent.bytes CMD_STOP] = [] ∧
    serveConns true [ConnEvent.bytes CMD_STOP] = [1] := by
  decide

/-- Claim C8, amended: the accept loop handles connections sequentially in
a single goroutine, so a connection that hangs before completing its
one-byte exchange blocks the loop and no subsequent client receives any
response. -/
theorem C8_amended_sequential_blocking (enabled : Bool)
    (rest : List ConnEvent) :
    serveConns enabled (ConnEvent.hang :: rest) = [] := rfl

/-- Claim C9, counterexample: from the initial armed state of the server,
issuing START twice yields the result pair (false, false), not
(true, false). -/
theorem C9_counterexample_start_twice_initial :
    execTwice CMD_START serverInitialListenerEnabled = some (false, false) ∧
    (some ((false : Bool), (false : Bool)) : Option (Bool × Bool)) ≠
      some (true, false) := by
  decide

/-- Claim C9, amended: the second of two identical START or STOP commands
always returns false, and the first returns true exactly when the flag was
outside the target state of the command: START twice yields
(not armed, false) and STOP twice yields (armed, false); from the initial
armed state, STOP twice gives (true, false) but START twice gives
(false, false). -/
theorem C9_amended_idempotence (armed : Bool) :
    execTwice CMD_START armed = some (!armed, false) ∧
    execTwice CMD_STOP armed = some (armed, false) := by
  cases armed <;> decide

/-- Claim C10: for every command byte outside the three valid values,
including the NONE byte 0, the executor falls through the switch, returns
true without touching the flag, and the server replies with the success
byte 1. -/
theorem C10_invalid_byte_replies_success (b : Nat) (armed : Bool)
    (h1 : b ≠ CMD_STOP) (h2 : b ≠ CMD_QUIT) (h3 : b ≠ CMD_START) :
    handleConnection b armed = ConnOutcome.reply 1 armed := by
  simp [handleConnection, executeCommand, h1, h2, h3]

/-- Witness for claim C10 at the NONE byte. -/
theorem C10_witness :
    handleConnection NO_COMMAND true = ConnOutcome.reply 1 true :=
  C10_invalid_byte_replies_success NO_COMMAND true
    (by decide) (by decide) (by decide)

end ProxyMonitor
